import Mathlib

/-!
Shallow embedding of the trivia REST API backend:
src/backend/utils.py (paginate_resources) and
src/backend/flaskr/__init__.py (route handlers and error handlers).

The relational store is modelled as in-memory lists of rows. The file
models.py (Category, Question, format, insert, delete) is not part of
src/, so those record types and persistence operations are modelled from
the spec, sections 3 and 6, as noted on each such definition.

One point of Python semantics is load-bearing for several handlers:
flask.abort raises an HTTPException, which is an ordinary Exception
subclass, so a bare except clause catches it. Consequently an
abort(404) placed inside a try block never reaches the client: the
except clause replaces it with its own abort. The handlers below model
this by running the try body in an Except monad whose error type covers
both abort codes and runtime exceptions, and mapping every error of the
try body to the except clause response.
-/

set_option linter.unusedVariables false

/-- Modelled from the spec: models.py is absent from src. Section 3 gives a
Category row as an integer id plus a type string. -/
structure Category where
  id : Nat
  type : String
deriving DecidableEq

/-- Modelled from the spec: models.py is absent from src. Section 3 gives a
Question row as integer id, question text, answer text, integer difficulty
and an integer category id (an unenforced foreign key). -/
structure Question where
  id : Nat
  question : String
  answer : String
  difficulty : Int
  category : Nat
deriving DecidableEq

/-- A formatted question record. Section 6: each question record, when
formatted for output, is an object with fields id, question, answer,
difficulty, category. -/
structure QuestionF where
  id : Nat
  question : String
  answer : String
  difficulty : Int
  category : Nat
deriving DecidableEq

/-- Modelled from the spec: the format-to-plain-mapping operation of the
data model (section 2), producing the section 6 output object. -/
def Question.format (q : Question) : QuestionF :=
  ⟨q.id, q.question, q.answer, q.difficulty, q.category⟩

/-- The relational store: all Category rows and all Question rows. -/
structure Store where
  categories : List Category
  questions : List Question
deriving DecidableEq

/-- A JSON scalar as found in a request body field; jnull also stands for
an absent key, since body.get with default None makes the two
indistinguishable. -/
inductive JVal where
  | jnull : JVal
  | jstr : String → JVal
  | jint : Int → JVal
  | jbool : Bool → JVal
deriving DecidableEq

/-- Python truthiness of a JSON scalar: None, empty string, 0 and False
are falsy, everything else is truthy. -/
def JVal.truthy : JVal → Bool
  | .jnull => false
  | .jstr s => !(s == "")
  | .jint n => !(n == 0)
  | .jbool b => b

/-- Python str conversion, as used by f-string interpolation of a body
field into a query pattern. -/
def JVal.pyStr : JVal → String
  | .jnull => "None"
  | .jstr s => s
  | .jint n => toString n
  | .jbool b => if b then "True" else "False"

/-- Ordering relation used by order_by on Question.id. -/
def qle (a b : Question) : Prop := a.id ≤ b.id

instance : DecidableRel qle := fun a b => Nat.decLe a.id b.id

instance : IsTotal Question qle := ⟨fun a b => Nat.le_total a.id b.id⟩

instance : IsTrans Question qle := ⟨fun _ _ _ => Nat.le_trans⟩

/-- The SQL order_by Question.id: the question rows sorted ascending by id. -/
def orderById (qs : List Question) : List Question := List.insertionSort qle qs

/-- Ordering relation used by order_by on Category.id. -/
def cle (a b : Category) : Prop := a.id ≤ b.id

instance : DecidableRel cle := fun a b => Nat.decLe a.id b.id

/-- The SQL order_by Category.id. -/
def orderCatById (cs : List Category) : List Category := List.insertionSort cle cs

/-- CPython list slicing with step 1: negative indices count from the end,
both endpoints are clamped to the list bounds, and an empty range yields
an empty list rather than an error. -/
def pySlice (xs : List α) (start stop : Int) : List α :=
  let n : Int := xs.length
  let s : Nat := if start < 0 then (max (n + start) 0).toNat else (min start n).toNat
  let e : Nat := if stop < 0 then (max (n + stop) 0).toNat else (min stop n).toNat
  (xs.drop s).take (e - s)

/-- src/backend/utils.py, paginate_resources: page is read from the request
(default 1), start is (page - 1) * max_page, end is start + max_page, the
selection is formatted and then sliced. The resource formatting call is a
parameter here because the helper works on any rows having a format
operation. -/
def paginate_resources (page : Int) (selection : List α) (fmt : α → β) (max_page : Nat) : List β :=
  let start : Int := (page - 1) * (max_page : Int)
  let stop : Int := start + (max_page : Int)
  let resources := selection.map fmt
  pySlice resources start stop

/-- Page size constant QUESTIONS_PER_PAGE from flaskr. -/
def QUESTIONS_PER_PAGE : Nat := 10

/-- Exceptions a handler try body can raise: an abort(n) call
(HTTPException), an IndexError from indexing an empty list, an
AttributeError from dereferencing None, or MultipleResultsFound from
one_or_none. -/
inductive PyExc where
  | httpError : Nat → PyExc
  | indexError : PyExc
  | attrError : PyExc
  | multipleResults : PyExc
deriving DecidableEq

/-- SQLAlchemy one_or_none on a filtered query: None for no row, the row
if unique, and an exception when several rows match. -/
def one_or_none : List α → Except PyExc (Option α)
  | [] => .ok none
  | [x] => .ok (some x)
  | _ => .error .multipleResults

/-- Body of the JSON error responses produced by the errorhandler
functions: the error code together with its fixed message. -/
structure ErrorBody where
  error : Nat
  message : String
deriving DecidableEq

/-- The fixed message of each registered errorhandler in flaskr. -/
def messageFor : Nat → String
  | 400 => "bad request"
  | 404 => "resource not found"
  | 405 => "Method Not Allowed"
  | 422 => "unprocessable"
  | 500 => "internal error"
  | _ => ""

/-- The JSON error body a given status code is rendered as. -/
def errBody (n : Nat) : ErrorBody := ⟨n, messageFor n⟩

instance {ε α : Type} [DecidableEq ε] [DecidableEq α] : DecidableEq (Except ε α) := fun a b =>
  match a, b with
  | .ok x, .ok y =>
      if h : x = y then .isTrue (by rw [h]) else .isFalse (fun hc => h (Except.ok.inj hc))
  | .error x, .error y =>
      if h : x = y then .isTrue (by rw [h]) else .isFalse (fun hc => h (Except.error.inj hc))
  | .ok _, .error _ => .isFalse (fun hc => Except.noConfusion hc)
  | .error _, .ok _ => .isFalse (fun hc => Except.noConfusion hc)

/-- The id-to-type mapping built by get_categories and get_questions from
all categories ordered by id. -/
def categoriesData (s : Store) : List (Nat × String) :=
  (orderCatById s.categories).map (fun c => (c.id, c.type))

/-- Response payload of GET /categories. -/
structure CategoriesPayload where
  categories : List (Nat × String)
deriving DecidableEq

/-- flaskr get_categories: returns the category mapping with a success
flag; no failure path. -/
def get_categories (s : Store) : Except ErrorBody CategoriesPayload :=
  .ok ⟨categoriesData s⟩

/-- Response payload of GET /questions. -/
structure QuestionsPayload where
  questions : List QuestionF
  total_questions : Nat
  current_category : String
  categories : List (Nat × String)
deriving DecidableEq

/-- flaskr get_questions: all questions ordered by id, paginated; 404 when
the computed page is empty (this abort is outside any try block, so it
reaches the client). Otherwise the category of the first question on the
page is looked up with first(); when that lookup yields None the attribute
access current_category.type raises AttributeError, which no handler
catches, so Flask renders the 500 response. -/
def get_questions (s : Store) (page : Int) : Except ErrorBody QuestionsPayload :=
  let selection := orderById s.questions
  let current_questions := paginate_resources page selection Question.format QUESTIONS_PER_PAGE
  match current_questions with
  | [] => .error (errBody 404)
  | q0 :: rest =>
    match (s.categories.filter (fun c => c.id == q0.category)).head? with
    | none => .error (errBody 500)
    | some current_category =>
      .ok ⟨q0 :: rest, selection.length, current_category.type, categoriesData s⟩

/-- Modelled from the spec: the delete persistence operation of models.py
(section 3 lifecycle: deleted via the delete endpoint); removes the looked
up row from the store. -/
def deleteQuestionRow (s : Store) (question_id : Nat) : Store :=
  { s with questions := s.questions.eraseP (fun q => q.id == question_id) }

/-- flaskr delete_question: the whole body sits in a try block whose bare
except calls abort(422). The abort(404) for a missing id is raised inside
the try, so the except clause catches that HTTPException and the client
receives 422, not 404. On success the response carries the deleted id. -/
def delete_question (s : Store) (question_id : Nat) : Except ErrorBody Nat × Store :=
  let tryBody : Except PyExc (Nat × Store) :=
    match one_or_none (s.questions.filter (fun q => q.id == question_id)) with
    | .error e => .error e
    | .ok none => .error (.httpError 404)
    | .ok (some _) => .ok (question_id, deleteQuestionRow s question_id)
  match tryBody with
  | .ok (deleted, s2) => (.ok deleted, s2)
  | .error _ => (.error (errBody 422), s)

/-- Request body of POST /questions; each field is what body.get returns,
with jnull standing for an absent key. -/
structure PostBody where
  question : JVal
  answer : JVal
  difficulty : JVal
  category : JVal
  searchTerm : JVal
  type : JVal
deriving DecidableEq

/-- Case-insensitive substring test: models the SQL ilike applied to the
pattern built by wrapping the term in percent wildcards. -/
def ilikeSub (text pat : String) : Bool :=
  let t := text.toList.map Char.toLower
  let p := pat.toList.map Char.toLower
  (List.range (t.length + 1)).any (fun i => (t.drop i).take p.length == p)

/-- Modelled from the spec: the insert persistence operation of models.py
(section 3: id auto-assigned, created via the create endpoint); appends a
row with a fresh id and the body fields. -/
def insertQuestion (s : Store) (body : PostBody) : Store :=
  let freshId := (s.questions.map Question.id).foldr max 0 + 1
  let difficulty : Int :=
    match body.difficulty with
    | .jint n => n
    | .jstr t => (t.toInt?).getD 0
    | _ => 0
  let category : Nat :=
    match body.category with
    | .jint n => n.toNat
    | .jstr t => (t.toNat?).getD 0
    | _ => 0
  { s with questions :=
      s.questions ++ [⟨freshId, body.question.pyStr, body.answer.pyStr, difficulty, category⟩] }

/-- Payload shared by the search branch, the filter-by-type branch and the
questions-by-category endpoint: a page of questions, the unpaginated match
count and a current category string. -/
structure QuestionListPayload where
  questions : List QuestionF
  total_questions : Nat
  current_category : String
deriving DecidableEq

/-- The three success shapes of POST /questions. -/
inductive PostPayload where
  | searchResults : QuestionListPayload → PostPayload
  | created : PostPayload
  | categoryFiltered : QuestionListPayload → PostPayload
deriving DecidableEq

/-- flaskr create_new_question: three branches selected by truthiness of
body fields, all inside one try block whose bare except calls abort(422).
Search branch: questions matching the term case-insensitively, ordered by
id, paginated; indexing the first page element raises IndexError when the
page is empty, and dereferencing a missing category raises AttributeError;
both land in the except clause. Create branch: fires only when question,
answer, difficulty and category are all truthy. Filter-by-type branch:
abort(404) for an unknown type is raised inside the try, so the except
clause turns it into 422. The final else abort(400) is likewise inside the
try and is also turned into 422. -/
def create_new_question (s : Store) (body : PostBody) (page : Int) :
    Except ErrorBody PostPayload × Store :=
  let tryBody : Except PyExc (PostPayload × Store) :=
    if body.searchTerm.truthy then
      let selection :=
        (orderById s.questions).filter (fun q => ilikeSub q.question body.searchTerm.pyStr)
      let current_questions := paginate_resources page selection Question.format QUESTIONS_PER_PAGE
      match current_questions with
      | [] => .error .indexError
      | q0 :: rest =>
        match (s.categories.filter (fun c => c.id == q0.category)).head? with
        | none => .error .attrError
        | some current_category =>
          .ok (.searchResults ⟨q0 :: rest, selection.length, current_category.type⟩, s)
    else if body.question.truthy && body.answer.truthy &&
        body.difficulty.truthy && body.category.truthy then
      .ok (.created, insertQuestion s body)
    else if body.type.truthy then
      match one_or_none (s.categories.filter (fun c => ilikeSub c.type body.type.pyStr)) with
      | .error e => .error e
      | .ok none => .error (.httpError 404)
      | .ok (some category) =>
        let selection := s.questions.filter (fun q => q.category == category.id)
        let current_questions := paginate_resources page selection Question.format QUESTIONS_PER_PAGE
        .ok (.categoryFiltered ⟨current_questions, selection.length, category.type⟩, s)
    else
      .error (.httpError 400)
  match tryBody with
  | .ok (p, s2) => (.ok p, s2)
  | .error _ => (.error (errBody 422), s)

/-- flaskr get_questions_from_category: the whole body sits in a try block
whose bare except calls abort(400). The abort(404) for a missing category
id is raised inside the try, so the except clause catches that
HTTPException and the client receives 400, not 404. -/
def get_questions_from_category (s : Store) (category_id : Nat) (page : Int) :
    Except ErrorBody QuestionListPayload :=
  let tryBody : Except PyExc QuestionListPayload :=
    match one_or_none (s.categories.filter (fun c => c.id == category_id)) with
    | .error e => .error e
    | .ok none => .error (.httpError 404)
    | .ok (some category) =>
      let selection := s.questions.filter (fun q => q.category == category_id)
      let current_questions := paginate_resources page selection Question.format QUESTIONS_PER_PAGE
      .ok ⟨current_questions, selection.length, category.type⟩
  match tryBody with
  | .ok p => .ok p
  | .error _ => .error (errBody 400)

/-- The quiz_category object sent by the frontend: a dict with an id and a
type. -/
structure QuizCategory where
  id : Nat
  type : String
deriving DecidableEq

/-- random.choice on a list: raises IndexError on an empty list, otherwise
returns the element at a position determined by the randomness source,
modelled here by a seed reduced modulo the length. -/
def random_choice (seed : Nat) : List α → Except PyExc α
  | [] => .error .indexError
  | x :: xs => .ok ((x :: xs).getD (seed % (x :: xs).length) x)

/-- flaskr get_quizzes: selects the questions whose id is not in
previous_questions, restricted to the category id when quiz_category was
supplied, caps the candidates with the pagination helper and picks one at
random; any exception, in particular the IndexError of random.choice on an
empty candidate list, becomes 422. -/
def get_quizzes (s : Store) (previous_questions : List Nat)
    (quiz_category : Option QuizCategory) (page : Int) (seed : Nat) :
    Except ErrorBody QuestionF :=
  let tryBody : Except PyExc QuestionF :=
    let selection :=
      match quiz_category with
      | none => s.questions.filter (fun q => !(previous_questions.contains q.id))
      | some qc =>
        s.questions.filter (fun q => !(previous_questions.contains q.id) && q.category == qc.id)
    let current_questions := paginate_resources page selection Question.format QUESTIONS_PER_PAGE
    random_choice seed current_questions
  match tryBody with
  | .ok q => .ok q
  | .error _ => .error (errBody 422)

/-- The empty store. -/
def emptyStore : Store := ⟨[], []⟩

/-- A store with one category and one question referencing it. -/
def sampleStore : Store := ⟨[⟨1, "Science"⟩], [⟨1, "What is water made of", "H2O", 1, 1⟩]⟩

/-- A store whose only question carries a category id matching no stored
category. -/
def danglingStore : Store := ⟨[], [⟨1, "What is water made of", "H2O", 1, 99⟩]⟩

/-- A store for exercising the quiz endpoint. -/
def quizStore : Store := ⟨[⟨2, "Art"⟩], [⟨5, "Who painted the lilies", "Monet", 2, 2⟩]⟩

/-- A POST body with every field absent. -/
def nullBody : PostBody := ⟨.jnull, .jnull, .jnull, .jnull, .jnull, .jnull⟩

/-- A POST body carrying only a search term. -/
def searchBody : PostBody := ⟨.jnull, .jnull, .jnull, .jnull, .jstr "title", .jnull⟩

/-- A POST body carrying only a question text, as in the repository test
for an incomplete creation request. -/
def missingFieldsBody : PostBody := ⟨.jstr "I have no answer", .jnull, .jnull, .jnull, .jnull, .jnull⟩

/-! Helper lemmas about slicing, pagination and ordering. -/

lemma pySlice_natCast (l : List β) (a s : Nat) :
    pySlice l (a : Int) ((a : Int) + (s : Int)) = (l.drop a).take s := by
  simp only [pySlice]
  rw [if_neg (by omega), if_neg (by omega)]
  have h1 : (min (a : Int) (l.length : Int)).toNat = min a l.length := by omega
  have h2 : (min ((a : Int) + (s : Int)) (l.length : Int)).toNat = min (a + s) l.length := by
    omega
  rw [h1, h2]
  rcases Nat.le_total a l.length with h | h
  · rw [Nat.min_eq_left h]
    rcases Nat.le_total (a + s) l.length with h3 | h3
    · rw [Nat.min_eq_left h3]
      congr 1
      omega
    · rw [Nat.min_eq_right h3]
      have hlen : (l.drop a).length = l.length - a := List.length_drop a l
      rw [List.take_of_length_le (le_of_eq hlen), List.take_of_length_le (by omega)]
  · rw [Nat.min_eq_right h, Nat.min_eq_right (le_trans h (Nat.le_add_right a s)),
      Nat.sub_self, List.take_zero, List.drop_eq_nil_of_le h, List.take_nil]

lemma pySlice_sublist (l : List β) (start stop : Int) :
    List.Sublist (pySlice l start stop) l :=
  (List.take_sublist _ _).trans (List.drop_sublist _ _)

lemma paginate_eq_drop_take (xs : List α) (fmt : α → β) (s p : Nat) (hp : 1 ≤ p) :
    paginate_resources (p : Int) xs fmt s = ((xs.map fmt).drop ((p - 1) * s)).take s := by
  simp only [paginate_resources]
  have h1 : ((p : Int) - 1) * (s : Int) = (((p - 1) * s : Nat) : Int) := by
    push_cast [Nat.cast_sub hp]
    ring
  rw [h1]
  exact pySlice_natCast (xs.map fmt) ((p - 1) * s) s

lemma paginate_empty (xs : List α) (fmt : α → β) (s p : Nat) (hp : 1 ≤ p)
    (h : xs.length ≤ (p - 1) * s) : paginate_resources (p : Int) xs fmt s = [] := by
  rw [paginate_eq_drop_take xs fmt s p hp,
    List.drop_eq_nil_of_le (by rw [List.length_map]; exact h), List.take_nil]

lemma paginate_sublist (page : Int) (xs : List α) (fmt : α → β) (s : Nat) :
    List.Sublist (paginate_resources page xs fmt s) (xs.map fmt) :=
  pySlice_sublist (xs.map fmt) _ _

lemma orderById_length (qs : List Question) : (orderById qs).length = qs.length :=
  (List.perm_insertionSort qle qs).length_eq

lemma sorted_orderById (qs : List Question) : (orderById qs).Pairwise qle :=
  List.sorted_insertionSort qle qs

lemma pairwise_id_page (s : Store) (p : Nat) (hp : 1 ≤ p) :
    (paginate_resources (p : Int) (orderById s.questions) Question.format
        QUESTIONS_PER_PAGE).Pairwise (fun a b : QuestionF => a.id ≤ b.id) := by
  rw [paginate_eq_drop_take _ _ _ _ hp]
  have hmap : ((orderById s.questions).map Question.format).Pairwise
      (fun a b : QuestionF => a.id ≤ b.id) := by
    rw [List.pairwise_map]
    exact sorted_orderById s.questions
  exact (hmap.sublist ((List.take_sublist _ _).trans (List.drop_sublist _ _)))

/-! Claim theorems. -/

/-- C5: for every list of records, every page size s greater than 0 and
every page number p at least 1, the pagination helper returns exactly the
formatted elements at offsets (p - 1) * s through p * s exclusive, clamped
to the list length, and in particular returns the empty list rather than
failing when (p - 1) * s is at or past the end of the list. -/
theorem paginate_resources_correct {α β : Type} (xs : List α) (fmt : α → β) (s p : Nat)
    (hs : 0 < s) (hp : 1 ≤ p) :
    paginate_resources (p : Int) xs fmt s = ((xs.map fmt).drop ((p - 1) * s)).take s ∧
      (xs.length ≤ (p - 1) * s → paginate_resources (p : Int) xs fmt s = []) :=
  ⟨paginate_eq_drop_take xs fmt s p hp, fun h => paginate_empty xs fmt s p hp h⟩

/-- C5 witness: the helper applied to a concrete three-element list at page
2 with page size 2. -/
theorem paginate_resources_correct_witness :
    paginate_resources ((2 : Nat) : Int) [10, 20, 30] (fun n => n + 1) 2 =
        (([10, 20, 30].map (fun n => n + 1)).drop ((2 - 1) * 2)).take 2 ∧
      ([10, 20, 30].length ≤ (2 - 1) * 2 →
        paginate_resources ((2 : Nat) : Int) [10, 20, 30] (fun n => n + 1) 2 = []) :=
  paginate_resources_correct [10, 20, 30] (fun n => n + 1) 2 2 (by decide) (by decide)

/-- C7: for every store state and page number p at least 1 whose page of
questions is empty, in particular any page at or beyond the end of the
question list, GET /questions responds with the 404 resource-not-found
error body. -/
theorem get_questions_empty_page_404 (s : Store) (p : Nat) (hp : 1 ≤ p)
    (h : s.questions.length ≤ (p - 1) * QUESTIONS_PER_PAGE) :
    get_questions s (p : Int) = .error (errBody 404) := by
  simp only [get_questions]
  rw [paginate_empty _ _ _ _ hp (by rw [orderById_length]; exact h)]

/-- C7 witness: page 1 of the empty store yields the 404 error body. -/
theorem get_questions_empty_page_404_witness :
    get_questions emptyStore ((1 : Nat) : Int) = .error (errBody 404) :=
  get_questions_empty_page_404 emptyStore 1 (by decide) (by decide)

/-- C1 counterexample: deleting id 1 from the empty store yields the 422
unprocessable error body and not the 404 resource-not-found one, because
the abort(404) raised inside the try block is caught by the bare except
clause; the store is left unchanged. -/
theorem delete_missing_counterexample :
    delete_question emptyStore 1 = (.error (errBody 422), emptyStore) ∧
      (delete_question emptyStore 1).fst ≠ .error (errBody 404) := by
  exact ⟨by decide, by decide⟩

/-- C1 amended: for every question identifier matching no stored question,
DELETE /questions responds with the 422 unprocessable error body and
leaves the store unchanged. -/
theorem delete_missing_422 (s : Store) (question_id : Nat)
    (h : ∀ q ∈ s.questions, q.id ≠ question_id) :
    delete_question s question_id = (.error (errBody 422), s) := by
  have hfil : s.questions.filter (fun q => q.id == question_id) = [] := by
    rw [List.filter_eq_nil_iff]
    intro q hq
    simpa using h q hq
  simp only [delete_question, hfil, one_or_none]

/-- C1 witness: deleting the absent id 2 from the sample store yields the
422 error body and the unchanged store. -/
theorem delete_missing_422_witness :
    delete_question sampleStore 2 = (.error (errBody 422), sampleStore) :=
  delete_missing_422 sampleStore 2 (by decide)

/-- C2: for every category identifier matching no stored category,
GET /categories/id/questions responds with the 400 bad-request error body:
the abort(404) raised inside the try block is an HTTPException, the bare
except clause catches it and calls abort(400). The repository test
test_invalid_category_id asserts a 404 with message resource not found for
exactly this situation, so the code contradicts its own test. -/
theorem category_missing_400 (s : Store) (category_id : Nat) (page : Int)
    (h : ∀ c ∈ s.categories, c.id ≠ category_id) :
    get_questions_from_category s category_id page = .error (errBody 400) := by
  have hfil : s.categories.filter (fun c => c.id == category_id) = [] := by
    rw [List.filter_eq_nil_iff]
    intro c hc
    simpa using h c hc
  simp only [get_questions_from_category, hfil, one_or_none]

/-- C2 witness: the lookup of category 58132144 used by the repository
test, against the empty store, yields the 400 error body. -/
theorem category_missing_400_witness :
    get_questions_from_category emptyStore 58132144 1 = .error (errBody 400) :=
  category_missing_400 emptyStore 58132144 1 (by decide)

/-- C3 counterexample: a POST /questions body triggering none of the three
branches yields the 422 unprocessable error body and not the 400
bad-request one, because the abort(400) in the final else sits inside the
try block and the bare except clause catches it. -/
theorem post_no_trigger_counterexample :
    (create_new_question emptyStore nullBody 1).fst = .error (errBody 422) ∧
      (create_new_question emptyStore nullBody 1).fst ≠ .error (errBody 400) := by
  exact ⟨by decide, by decide⟩

/-- C3 amended: for every POST /questions body with no truthy searchTerm,
not all four of question, answer, difficulty and category truthy, and no
truthy type, the endpoint responds with the 422 unprocessable error body. -/
theorem post_no_trigger_422 (s : Store) (body : PostBody) (page : Int)
    (hsearch : body.searchTerm.truthy = false)
    (hall : (body.question.truthy && body.answer.truthy &&
      body.difficulty.truthy && body.category.truthy) = false)
    (htype : body.type.truthy = false) :
    (create_new_question s body page).fst = .error (errBody 422) := by
  simp only [create_new_question, hsearch, hall, htype, Bool.false_eq_true, if_false]

/-- C3 witness: the all-absent body on the empty store yields the 422
error body. -/
theorem post_no_trigger_422_witness :
    (create_new_question emptyStore nullBody 1).fst = .error (errBody 422) :=
  post_no_trigger_422 emptyStore nullBody 1 (by decide) (by decide) (by decide)

/-- C9: the create branch of POST /questions fires only when all four of
question, answer, difficulty and category are truthy; whenever at least
one of them is falsy and neither searchTerm nor type is truthy, no
question is inserted, the store is returned unchanged, and the 422 error
body is returned instead of a success payload. -/
theorem create_branch_guard (s : Store) (body : PostBody) (page : Int)
    (hsearch : body.searchTerm.truthy = false)
    (htype : body.type.truthy = false)
    (hmiss : body.question.truthy = false ∨ body.answer.truthy = false ∨
      body.difficulty.truthy = false ∨ body.category.truthy = false) :
    create_new_question s body page = (.error (errBody 422), s) := by
  have hall : (body.question.truthy && body.answer.truthy &&
      body.difficulty.truthy && body.category.truthy) = false := by
    rcases hmiss with h | h | h | h <;> simp [h]
  simp only [create_new_question, hsearch, htype, hall, Bool.false_eq_true, if_false]

/-- C9 witness: the body of the repository test carrying only a question
text leaves the store unchanged and yields the 422 error body. -/
theorem create_branch_guard_witness :
    create_new_question emptyStore missingFieldsBody 1 = (.error (errBody 422), emptyStore) :=
  create_branch_guard emptyStore missingFieldsBody 1 (by decide) (by decide)
    (Or.inr (Or.inl (by decide)))

/-- C8: for every POST /questions body with a truthy searchTerm whose
case-insensitive substring match against question text yields no questions
on the requested page, the endpoint responds with the 422 unprocessable
error body: indexing the first element of the empty page raises an
IndexError which the bare except clause maps to abort(422); neither a 404
nor a success payload with an empty list is produced. -/
theorem search_empty_page_422 (s : Store) (body : PostBody) (page : Int)
    (hterm : body.searchTerm.truthy = true)
    (hempty : paginate_resources page
        ((orderById s.questions).filter (fun q => ilikeSub q.question body.searchTerm.pyStr))
        Question.format QUESTIONS_PER_PAGE = []) :
    create_new_question s body page = (.error (errBody 422), s) := by
  simp only [create_new_question, hterm, if_true, hempty]

/-- C8 witness: searching for the term title in the empty store yields the
422 error body. -/
theorem search_empty_page_422_witness :
    create_new_question emptyStore searchBody 1 = (.error (errBody 422), emptyStore) :=
  search_empty_page_422 emptyStore searchBody 1 (by decide) (by decide)

/-- C6 counterexample: a store holding one question whose category id 99
matches no stored category, at page 1: the page of questions is non-empty,
yet GET /questions produces the 500 internal-error body instead of a
success payload listing the page. -/
theorem get_questions_dangling_counterexample :
    paginate_resources ((1 : Nat) : Int) (orderById danglingStore.questions) Question.format
        QUESTIONS_PER_PAGE ≠ [] ∧
      get_questions danglingStore ((1 : Nat) : Int) = .error (errBody 500) := by
  exact ⟨by decide, by decide⟩

/-- C6 amended: for every store state and page number p at least 1 whose
page of questions is non-empty, provided some stored category matches the
category id of the first question on the page, GET /questions returns
exactly min(10, total minus (p - 1) * 10) question records in ascending id
order and its total_questions field equals the total number of stored
questions regardless of p. -/
theorem get_questions_page_correct (s : Store) (p : Nat) (hp : 1 ≤ p)
    (q0 : QuestionF) (rest : List QuestionF)
    (hpage : paginate_resources (p : Int) (orderById s.questions) Question.format
        QUESTIONS_PER_PAGE = q0 :: rest)
    (cat : Category)
    (hcat : (s.categories.filter (fun c => c.id == q0.category)).head? = some cat) :
    get_questions s (p : Int) =
        .ok ⟨q0 :: rest, s.questions.length, cat.type, categoriesData s⟩ ∧
      (q0 :: rest).length =
        min QUESTIONS_PER_PAGE (s.questions.length - (p - 1) * QUESTIONS_PER_PAGE) ∧
      (q0 :: rest).Pairwise (fun a b : QuestionF => a.id ≤ b.id) := by
  refine ⟨?_, ?_, ?_⟩
  · simp only [get_questions, hpage, hcat, orderById_length]
  · have hpg := paginate_eq_drop_take (orderById s.questions) Question.format
      QUESTIONS_PER_PAGE p hp
    rw [hpage] at hpg
    have hlen := congrArg List.length hpg
    rw [List.length_take, List.length_drop, List.length_map, orderById_length] at hlen
    exact hlen
  · have hpw := pairwise_id_page s p hp
    rw [hpage] at hpw
    exact hpw

/-- C6 witness: page 1 of the sample store lists its single question with
total 1, category Science, in ascending order. -/
theorem get_questions_page_correct_witness :
    get_questions sampleStore ((1 : Nat) : Int) =
        .ok ⟨[⟨1, "What is water made of", "H2O", 1, 1⟩], sampleStore.questions.length,
          (⟨1, "Science"⟩ : Category).type, categoriesData sampleStore⟩ ∧
      ([(⟨1, "What is water made of", "H2O", 1, 1⟩ : QuestionF)]).length =
        min QUESTIONS_PER_PAGE (sampleStore.questions.length - (1 - 1) * QUESTIONS_PER_PAGE) ∧
      ([(⟨1, "What is water made of", "H2O", 1, 1⟩ : QuestionF)]).Pairwise
        (fun a b : QuestionF => a.id ≤ b.id) :=
  get_questions_page_correct sampleStore 1 (by decide)
    ⟨1, "What is water made of", "H2O", 1, 1⟩ [] (by decide) ⟨1, "Science"⟩ (by decide)

/-- C10: for every store state and page number p at least 1 where the
requested page of GET /questions is non-empty but the first question on
the page has a category id matching no stored category, the first()
lookup yields None, the attribute access on None fails, and the request
produces the 500 internal-error body rather than a 404 or 422. -/
theorem get_questions_dangling_category_500 (s : Store) (p : Nat) (hp : 1 ≤ p)
    (q0 : QuestionF) (rest : List QuestionF)
    (hpage : paginate_resources (p : Int) (orderById s.questions) Question.format
        QUESTIONS_PER_PAGE = q0 :: rest)
    (hnone : ∀ c ∈ s.categories, c.id ≠ q0.category) :
    get_questions s (p : Int) = .error (errBody 500) := by
  have hfil : s.categories.filter (fun c => c.id == q0.category) = [] := by
    rw [List.filter_eq_nil_iff]
    intro c hc
    simpa using hnone c hc
  simp only [get_questions, hpage, hfil, List.head?_nil]

/-- C10 witness: page 1 of the store whose single question carries the
dangling category id 99 yields the 500 error body. -/
theorem get_questions_dangling_category_500_witness :
    get_questions danglingStore ((1 : Nat) : Int) = .error (errBody 500) :=
  get_questions_dangling_category_500 danglingStore 1 (by decide)
    ⟨1, "What is water made of", "H2O", 1, 99⟩ [] (by decide) (by decide)

lemma random_choice_mem {l : List α} {seed : Nat} {q : α}
    (h : random_choice seed l = .ok q) : q ∈ l := by
  cases l with
  | nil => simp [random_choice] at h
  | cons x xs =>
    simp only [random_choice, Except.ok.injEq] at h
    have hlt : seed % (x :: xs).length < (x :: xs).length :=
      Nat.mod_lt seed (by simp)
    rw [List.getD_eq_getElem (x :: xs) x hlt] at h
    rw [← h]
    exact List.getElem_mem hlt

lemma paginate_mem {page : Int} {xs : List α} {fmt : α → β} {s : Nat} {b : β}
    (h : b ∈ paginate_resources page xs fmt s) : b ∈ xs.map fmt :=
  (paginate_sublist page xs fmt s).mem h

/-- C4: whenever POST /quizzes returns a question with a success flag, the
id of that question is not an element of previous_questions, and when a
quiz category was supplied the category of the question equals the id of
that category. -/
theorem quiz_fresh_question (s : Store) (previous_questions : List Nat)
    (quiz_category : Option QuizCategory) (page : Int) (seed : Nat) (q : QuestionF)
    (h : get_quizzes s previous_questions quiz_category page seed = .ok q) :
    q.id ∉ previous_questions ∧
      (∀ qc, quiz_category = some qc → q.category = qc.id) := by
  cases quiz_category with
  | none =>
    simp only [get_quizzes] at h
    rcases hrc : random_choice seed (paginate_resources page
        (s.questions.filter (fun r => !(previous_questions.contains r.id)))
        Question.format QUESTIONS_PER_PAGE) with e | q'
    · rw [hrc] at h
      simp at h
    · rw [hrc] at h
      have hq : q' = q := Except.ok.inj h
      subst hq
      obtain ⟨q0, hmem, hfmt⟩ := List.mem_map.1 (paginate_mem (random_choice_mem hrc))
      simp only [List.mem_filter] at hmem
      refine ⟨?_, fun qc hqc => by cases hqc⟩
      rw [← hfmt]
      have hc := hmem.2
      simp at hc
      simpa [Question.format] using hc
  | some qc =>
    simp only [get_quizzes] at h
    rcases hrc : random_choice seed (paginate_resources page
        (s.questions.filter
          (fun r => !(previous_questions.contains r.id) && r.category == qc.id))
        Question.format QUESTIONS_PER_PAGE) with e | q'
    · rw [hrc] at h
      simp at h
    · rw [hrc] at h
      have hq : q' = q := Except.ok.inj h
      subst hq
      obtain ⟨q0, hmem, hfmt⟩ := List.mem_map.1 (paginate_mem (random_choice_mem hrc))
      simp only [List.mem_filter, Bool.and_eq_true] at hmem
      constructor
      · rw [← hfmt]
        have hc := hmem.2.1
        simp at hc
        simpa [Question.format] using hc
      · intro qc0 hqc0
        cases Option.some.inj hqc0
        rw [← hfmt]
        have hc := hmem.2.2
        simp at hc
        simpa [Question.format] using hc

/-- C4 witness: the quiz store with no previous questions and the Art
category returns its question with id 5, which is not among the previous
questions and belongs to category 2. -/
theorem quiz_fresh_question_witness :
    (⟨5, "Who painted the lilies", "Monet", 2, 2⟩ : QuestionF).id ∉ ([] : List Nat) ∧
      (∀ qc, (some (⟨2, "Art"⟩ : QuizCategory) : Option QuizCategory) = some qc →
        (⟨5, "Who painted the lilies", "Monet", 2, 2⟩ : QuestionF).category = qc.id) :=
  quiz_fresh_question quizStore [] (some ⟨2, "Art"⟩) 1 0
    ⟨5, "Who painted the lilies", "Monet", 2, 2⟩ (by decide)
